import Mathlib

/-!
Verification of the StayAssist conversational front end.

The development shallowly embeds the three client-side components of the
repository — the transport client (`RasaAPI`), the response reconciler
(`handleRasaResponse`), and the booking-mode date-range picker
(`addCalendarWidget`) — together with the page-level `sendMessage` context
reset and the persistence collaborator's `saveConversation`.

JavaScript strings are modelled as Lean `String`s; the JS operations
`toLowerCase`, `trim`, `includes`, `substring`, and `indexOf` are modelled
by executable functions over the underlying character lists.  Clock reads
(`Date.now()`) are threaded explicitly as natural numbers; the
single-threaded asynchronous control flow is modelled by splitting each
async function at its await points where a claim depends on interleaving.
-/

set_option maxRecDepth 100000

namespace StayAssist

/-! ## JavaScript string primitives -/

/-- Whether the first list is a prefix of the second (character lists). -/
def isPrefixChars : List Char → List Char → Bool
  | [], _ => true
  | _ :: _, [] => false
  | p :: ps, c :: cs => (p == c) && isPrefixChars ps cs

/-- Whether `pat` occurs as a contiguous substring of the first list. -/
def hasSubstrChars : List Char → List Char → Bool
  | _, [] => true
  | [], _ :: _ => false
  | c :: cs, pat => isPrefixChars pat (c :: cs) || hasSubstrChars cs pat

/-- JS `s.includes(pat)`. -/
def jsIncludes (s pat : String) : Bool := hasSubstrChars s.data pat.data

/-- JS `s.toLowerCase()` (ASCII, which is all the source uses). -/
def jsToLower (s : String) : String := String.mk (s.data.map Char.toLower)

/-- Strip leading and trailing whitespace from a character list. -/
def trimChars (l : List Char) : List Char :=
  ((l.dropWhile Char.isWhitespace).reverse.dropWhile Char.isWhitespace).reverse

/-- JS `s.trim()`. -/
def jsTrim (s : String) : String := String.mk (trimChars s.data)

/-- JS `Array.prototype.indexOf` for an element of the list: index of the
first occurrence (list length when absent, which the callers never hit). -/
def idxOf (m : String) : List String → Nat
  | [] => 0
  | x :: xs => if x == m then 0 else idxOf m xs + 1

/-- JS `arr.slice(-n)`: the last `n` elements. -/
def lastSlice (n : Nat) (xs : List String) : List String := xs.drop (xs.length - n)

/-! ## Transport client (`RasaAPI`, `frontend/js/app.js`)

`RasaAPI.sendMessage` / `RasaAPI._executeRequest` are async; we model
`sendMessage` in two layers.  `sendMessageEnter` is the synchronous prefix of
`sendMessage` (everything it executes before its first await: the fail-fast
availability check, the request-id computation, the pending-map lookup and
insertion, and the start of `_executeRequest`); on the single-threaded event
loop this prefix runs atomically, so two overlapping calls are exactly two
consecutive `sendMessageEnter` steps.  `executeRequest` models
`_executeRequest` run to settlement against an environment giving the outcome
of each fetch attempt, and `sendMessageResolved` composes the two, including
the unconditional `finally` removal of the pending entry. -/

namespace RasaAPI

/-- A conversation context as the transport layer sees it: an opaque JSON
object (the client never inspects it here). -/
abbrev Ctx := List (String × String)

/-- One element of a backend `messages` array as the transport layer shapes
it in `createErrorResponse`. -/
structure RMessage where
  text : String
  deriving DecidableEq

/-- The response object shape shared by real backend replies and synthesized
error replies: `{ error?, messages, context }`. -/
structure RasaResponse where
  error : Option String
  messages : List RMessage
  context : Ctx
  deriving DecidableEq

/-- `RasaAPI.createErrorResponse(errorMessage, userMessage, context)`. -/
def createErrorResponse (errorMessage userMessage : String) (context : Ctx) : RasaResponse :=
  { error := some errorMessage
    messages := [{ text := userMessage }]
    context := context }

/-- `this.maxRetries`. -/
def maxRetries : Nat := 2

/-- `RasaAPI.generateRequestId(message, context)`: the message's first 50
characters joined with the current clock in milliseconds.  The `context`
parameter is accepted and ignored, as in the source. -/
def generateRequestId (message : String) (_context : Ctx) (now : Nat) : String :=
  message.take 50 ++ "_" ++ toString now

/-- The transport client's mutable fields: availability state, the pending
request map (keyed by request id), and — for the proofs — a counter of how
many times `_executeRequest` has been started (each start issues a backend
call). -/
structure APIState where
  isConnected : Bool
  lastCheckTime : Nat
  pendingRequests : List String
  backendCalls : Nat
  deriving DecidableEq

/-- The user-facing apology of the fail-fast branch of `sendMessage`. -/
def connectApology : String :=
  "I'm sorry, I'm having trouble connecting to my backend service. Please try again in a few moments."

/-- The user-facing apology of the retry-exhausted branch of `_executeRequest`. -/
def backendApology : String :=
  "I'm sorry, I encountered a problem communicating with my backend. Please try again later."

/-- What the synchronous prefix of `sendMessage` decides for one call. -/
inductive EnterResult
  | shortCircuit (r : RasaResponse)
  | joinedPending (requestId : String)
  | executed (requestId : String)
  deriving DecidableEq

/-- The synchronous prefix of `RasaAPI.sendMessage(message, context)` at clock
`now`: fail fast when the server is known down and the last check was under
5000 ms ago; otherwise compute the request id; if an identical id is pending
return that pending promise (`joinedPending`); otherwise start
`_executeRequest` (counted in `backendCalls`) and store its promise. -/
def sendMessageEnter (message : String) (context : Ctx) (now : Nat) (st : APIState) :
    EnterResult × APIState :=
  if st.isConnected = false ∧ now - st.lastCheckTime < 5000 then
    (.shortCircuit (createErrorResponse "Server connection issue" connectApology context), st)
  else
    let requestId := generateRequestId message context now
    if st.pendingRequests.contains requestId then
      (.joinedPending requestId, st)
    else
      (.executed requestId,
        { st with
          pendingRequests := st.pendingRequests ++ [requestId]
          backendCalls := st.backendCalls + 1 })

/-- A JS exception as `_executeRequest`'s catch block sees it. -/
structure JsError where
  name : String
  message : String
  deriving DecidableEq

/-- The abort error raised when the timeout's `AbortController` fires. -/
def abortError : JsError := { name := "AbortError", message := "signal is aborted without reason" }

/-- The error thrown for a non-2xx response:
`new Error("Server responded with " + status + ": " + statusText)`. -/
def serverErrorOf (status : Nat) (statusText : String) : JsError :=
  { name := "Error", message := "Server responded with " ++ toString status ++ ": " ++ statusText }

/-- The predicate `_executeRequest` applies in its catch block, both to mark
the server disconnected and to decide whether to retry:
`error.name === 'AbortError' || error.message.includes('NetworkError')`. -/
def retriable (e : JsError) : Bool :=
  e.name == "AbortError" || jsIncludes e.message "NetworkError"

/-- The availability fields `isConnected` / `lastCheckTime` as
`_executeRequest` reads and writes them. -/
structure Conn where
  isConnected : Bool
  lastCheckTime : Nat
  deriving DecidableEq

/-- How one fetch attempt of `_executeRequest` settles: aborted by the
timeout, rejected by the network stack, completed with an HTTP response, or
completed OK but with a body `response.json()` failed to parse. -/
inductive FetchOutcome
  | abort
  | netFail (name message : String)
  | jsonFail (name message : String)
  | httpRes (ok : Bool) (status : Nat) (statusText : String) (body : RasaResponse)
  deriving DecidableEq

/-- What one iteration of the try block produces at clock `t`: a returned
body, or a caught error together with the availability state at the moment
the catch block starts (a completed HTTP response marks the server connected
before the status is examined; an abort or network rejection leaves the
fields as they were). -/
inductive AttemptStep
  | ret (body : RasaResponse) (conn : Conn)
  | caught (e : JsError) (conn : Conn)

/-- One iteration of the `while` loop of `_executeRequest`. -/
def attemptFetch : FetchOutcome → Nat → Conn → AttemptStep
  | .abort, _, conn => .caught abortError conn
  | .netFail name message, _, conn => .caught { name := name, message := message } conn
  | .jsonFail name message, t, _ =>
    .caught { name := name, message := message } { isConnected := true, lastCheckTime := t }
  | .httpRes ok status statusText body, t, _ =>
    if ok then .ret body { isConnected := true, lastCheckTime := t }
    else .caught (serverErrorOf status statusText) { isConnected := true, lastCheckTime := t }

/-- The settled value of `_executeRequest`: either the parsed body of a
successful response, or the synthesized `createErrorResponse` object.  Every
exception inside the loop is caught, so settlement is the only exit. -/
inductive ExecReturn
  | success (body : RasaResponse)
  | errorResp (r : RasaResponse)
  deriving DecidableEq

/-- `lastError.message` when the retry budget runs out.  The `none` case is
unreachable from `executeRequest` (the loop body runs at least once and every
path into the base case records the caught error first). -/
def lastErrorMessage : Option JsError → String
  | some e => e.message
  | none => ""

/-- The retry loop of `_executeRequest`.  `fuel` counts the iterations the
`while (retries <= maxRetries)` guard still allows, `k` the attempt index
(used to look up that attempt's outcome and clock).  Returns the settled
value, the final availability fields, and the number of fetch attempts
issued. -/
def execLoop (outcomes : Nat → FetchOutcome) (times : Nat → Nat) (context : Ctx) :
    Nat → Nat → Option JsError → Conn → ExecReturn × Conn × Nat
  | 0, k, lastError, conn =>
    (.errorResp (createErrorResponse (lastErrorMessage lastError) backendApology context), conn, k)
  | fuel + 1, k, _lastError, conn =>
    match attemptFetch (outcomes k) (times k) conn with
    | .ret body conn2 => (.success body, conn2, k + 1)
    | .caught e conn2 =>
      if retriable e then
        execLoop outcomes times context fuel (k + 1) (some e)
          { isConnected := false, lastCheckTime := times k }
      else
        (.errorResp (createErrorResponse e.message backendApology context), conn2, k + 1)

/-- `RasaAPI._executeRequest(message, context)` run to settlement: up to
`maxRetries + 1 = 3` attempts. -/
def executeRequest (outcomes : Nat → FetchOutcome) (times : Nat → Nat) (context : Ctx)
    (conn : Conn) : ExecReturn × Conn × Nat :=
  execLoop outcomes times context (maxRetries + 1) 0 none conn

/-- The value a caller of `sendMessage` eventually awaits. -/
inductive SendResult
  | immediate (r : RasaResponse)
  | joined (requestId : String)
  | awaited (r : ExecReturn)
  deriving DecidableEq

/-- `RasaAPI.sendMessage` from call to settlement (no interleaved calls):
the synchronous prefix, then — when a fresh request was started — the settled
`_executeRequest` value, the availability fields it left behind, and the
`finally` handler's removal of the pending entry.  A `joined` result stands
for awaiting the already-pending promise of the identical earlier request. -/
def sendMessageResolved (message : String) (context : Ctx) (now : Nat)
    (outcomes : Nat → FetchOutcome) (times : Nat → Nat) (st : APIState) :
    SendResult × APIState :=
  match sendMessageEnter message context now st with
  | (.shortCircuit r, st1) => (.immediate r, st1)
  | (.joinedPending requestId, st1) => (.joined requestId, st1)
  | (.executed requestId, st1) =>
    let run := executeRequest outcomes times context
      { isConnected := st1.isConnected, lastCheckTime := st1.lastCheckTime }
    (.awaited run.1,
      { st1 with
        isConnected := run.2.1.isConnected
        lastCheckTime := run.2.1.lastCheckTime
        pendingRequests := st1.pendingRequests.erase requestId })

end RasaAPI

/-! ## Response reconciler (`handleRasaResponse`, `frontend/js/app.js`)

`handleRasaResponse(response, timestamp)` collects the batch's text messages
and calendar widgets, runs the suppression filters in source order, appends
the survivors to the feed, and — when nothing was appended, the response
carries no actions, and the preceding user turn was not a date confirmation —
synthesizes a greeting or a processing placeholder.  The DOM reads
(`.message-text`, `.user-message .message-text`) are modelled by a snapshot
of the rendered feed passed in as `dom`. -/

namespace Handler

/-- The `json_message` structured payload a backend message may carry. -/
structure JsonMessage where
  type : String
  mode : Option String := none
  min_date : Option String := none
  arrival_date : Option String := none
  deriving DecidableEq

/-- One element of the backend's message array: `{ text?, json_message? }`. -/
structure RMsg where
  text : Option String := none
  json_message : Option JsonMessage := none
  deriving DecidableEq

/-- The `data` argument of `handleRasaResponse`: `null`/`undefined`, a bare
array of messages, or an object with optional `messages`, `context` and
`actions` fields. -/
inductive RResponse
  | nullResp
  | arr (msgs : List RMsg)
  | obj (messages : Option (List RMsg)) (context : Option RasaAPI.Ctx)
      (actions : Option (List String))
  deriving DecidableEq

/-- The message list the two collection branches iterate over: the response
itself when it is an array, its `messages` field when that is an array,
nothing otherwise. -/
def msgsOf : RResponse → List RMsg
  | .nullResp => []
  | .arr msgs => msgs
  | .obj (some msgs) _ _ => msgs
  | .obj none _ _ => []

/-- The `actions` array of the response (`[]` when absent). -/
def actionsOf : RResponse → List String
  | .obj _ _ (some actions) => actions
  | _ => []

/-- Whether a message carries a calendar widget:
`message.json_message && message.json_message.type === 'calendar'`. -/
def isCalendarMsg (m : RMsg) : Bool :=
  match m.json_message with
  | some j => j.type == "calendar"
  | none => false

/-- Whether `message.text && message.text.trim()` is truthy. -/
def hasText (m : RMsg) : Bool :=
  match m.text with
  | some t => !(jsTrim t == "")
  | none => false

/-- The collection loop's `allMessages`: trimmed texts of the non-empty,
non-calendar messages, in order. -/
def collectTexts (msgs : List RMsg) : List String :=
  msgs.filterMap fun m =>
    match m.text with
    | some t => if !(jsTrim t == "") && !isCalendarMsg m then some (jsTrim t) else none
    | none => none

/-- The calendar widgets the collection loop hands to `addCalendarWidget`. -/
def collectWidgets (msgs : List RMsg) : List JsonMessage :=
  msgs.filterMap fun m => if isCalendarMsg m then m.json_message else none

/-- Whether the collection loop set `messageAdded` for a calendar message
with non-empty text. -/
def widgetTextAdded (msgs : List RMsg) : Bool :=
  msgs.any fun m => isCalendarMsg m && hasText m

/-- A rendered feed entry as the handler's DOM lookups see it. -/
structure DomMsg where
  isUser : Bool
  text : String
  deriving DecidableEq

/-- The "Let's continue" transitional-phrase filter (step one): a message is
kept unless it contains one of the continue phrases, or contains `continue`
together with `book`/`booking`. -/
def continueKeep (msg : String) : Bool :=
  if jsIncludes (jsToLower msg) "let's continue" || jsIncludes (jsToLower msg) "lets continue" ||
      jsIncludes (jsToLower msg) "let's continue with" ||
      jsIncludes (jsToLower msg) "lets continue with" ||
      jsIncludes (jsToLower msg) "let's continue with book" ||
      jsIncludes (jsToLower msg) "lets continue with book" then
    false
  else if jsIncludes (jsToLower msg) "continue" &&
      (jsIncludes (jsToLower msg) "book" || jsIncludes (jsToLower msg) "booking") then
    false
  else
    true

/-- The three "information sufficient" prompt fragments. -/
def infoPhrases : List String :=
  ["i hope i've provided you with sufficient information",
   "is there anything else you'd like to know",
   "shall we continue with your booking"]

/-- The fallback phrase fragments. -/
def fallbackPhrases : List String :=
  ["i'm sorry i am unable to understand you",
   "could you please rephrase",
   "i'm sorry",
   "unable to understand",
   "please rephrase",
   "utter_ask_rephrase"]

/-- Whether an (already lowercased) message is recognized as a fallback. -/
def isFallbackLower (msgLower : String) : Bool :=
  fallbackPhrases.any fun phrase => jsIncludes msgLower phrase

/-- `hasInfoQuestionInDOM`: one of the last five rendered feed entries
contains an info-question phrase. -/
def hasInfoQuestionInDOM (dom : List DomMsg) : Bool :=
  (lastSlice 5 (dom.map (·.text))).any fun t =>
    infoPhrases.any fun phrase => jsIncludes (jsToLower t) phrase

/-- `hasInfoQuestionInResponse`: some message of the (continue-filtered)
batch contains an info-question phrase. -/
def hasInfoQuestionInResponse (msgs : List String) : Bool :=
  msgs.any fun m => infoPhrases.any fun phrase => jsIncludes (jsToLower m) phrase

/-- The predicate of the placeholder/fallback filter (step two), over the
list `xs` it filters (the source closure reads `allMessages` for the
previous-message lookup via `indexOf`). -/
def fallbackKeep (hasInfoQuestion : Bool) (xs : List String) (msg : String) : Bool :=
  if jsTrim (jsToLower msg) == "placeholder" ||
      jsIncludes (jsTrim (jsToLower msg)) "placeholder" then
    false
  else if isFallbackLower (jsToLower msg) && hasInfoQuestion then
    false
  else if 0 < idxOf msg xs then
    if jsIncludes (jsToLower (xs.getD (idxOf msg xs - 1) "")) "great" &&
        jsIncludes (jsToLower (xs.getD (idxOf msg xs - 1) "")) "continue" &&
        isFallbackLower (jsToLower msg) then
      false
    else
      true
  else
    true

/-- Step two: drop placeholder messages always, fallback messages after an
info question, and fallback messages right after a "Great … continue". -/
def fallbackFilter (hasInfoQuestion : Bool) (xs : List String) : List String :=
  xs.filter (fallbackKeep hasInfoQuestion xs)

/-- Step three: when the first message is "Great … continue" and the second a
generic help offer, keep only the first message. -/
def pairFilter (xs : List String) : List String :=
  match xs with
  | m1 :: m2 :: _ =>
    if jsIncludes (jsToLower m1) "great" && jsIncludes (jsToLower m1) "continue" &&
        (jsIncludes (jsToLower m2) "what else" || jsIncludes (jsToLower m2) "how can i assist" ||
          jsIncludes (jsToLower m2) "how can i help") then
      [m1]
    else
      xs
  | _ => xs

/-- The booking-summary indicator fragments. -/
def bookingSummaryIndicators : List String :=
  ["booking reference", "booking summary", "your booking reference is"]

/-- Step four: after a booking summary, drop generic help offers. -/
def summaryFilter (xs : List String) : List String :=
  if xs.any (fun m =>
      bookingSummaryIndicators.any fun indicator => jsIncludes (jsToLower m) indicator) then
    xs.filter fun m =>
      !(jsIncludes (jsToLower m) "what else can i help" ||
        jsIncludes (jsToLower m) "how can i assist" ||
        jsIncludes (jsToLower m) "how can i help")
  else
    xs

/-- The normalized key of the duplicate filter: `msg.toLowerCase().trim()`. -/
def normKey (msg : String) : String := jsTrim (jsToLower msg)

/-- The duplicate filter's loop over `seenNormalized`. -/
def dedupAux : List String → List String → List String
  | [], _ => []
  | m :: rest, seen =>
    if normKey m ∈ seen then dedupAux rest seen
    else m :: dedupAux rest (normKey m :: seen)

/-- Step five: collapse case-insensitive exact duplicates to the first
occurrence. -/
def dedupFilter (xs : List String) : List String := dedupAux xs []

/-- Step six: when more than one message survives and the first is a
greeting, keep only the first. -/
def greetingCollapse (xs : List String) : List String :=
  if 1 < xs.length then
    match xs with
    | firstMessage :: _ =>
      if jsIncludes (jsToLower firstMessage) "welcome" ||
          jsIncludes (jsToLower firstMessage) "how can i assist" ||
          jsIncludes (jsToLower firstMessage) "how can i help" then
        [firstMessage]
      else
        xs
    | [] => xs
  else
    xs

/-- The loop of the repeated-guests-question filter, carrying `foundFirst`. -/
def keepFirstGuests : List String → Bool → List String
  | [], _ => []
  | m :: rest, foundFirst =>
    if jsIncludes (jsToLower m) "for how many guests" then
      if foundFirst then keepFirstGuests rest foundFirst
      else m :: keepFirstGuests rest true
    else
      m :: keepFirstGuests rest foundFirst

/-- Step seven: keep only the first "For how many guests?" when it repeats. -/
def guestsFilter (xs : List String) : List String :=
  if 1 < (xs.filter fun m => jsIncludes (jsToLower m) "for how many guests").length then
    keepFirstGuests xs false
  else
    xs

/-- Whether the rendered feed already contains the canonical welcome
greeting. -/
def existingGreeting (dom : List DomMsg) : Bool :=
  dom.any fun d =>
    let t := jsToLower d.text
    jsIncludes t "welcome to stayassist" && jsIncludes t "how can i assist"

/-- Step eight: when the feed already greets, drop a repeated greeting. -/
def existGreetFilter (alreadyGreeted : Bool) (xs : List String) : List String :=
  if alreadyGreeted then
    xs.filter fun m =>
      !(jsIncludes (jsToLower m) "welcome to stayassist" &&
        jsIncludes (jsToLower m) "how can i assist")
  else
    xs

/-- Stage after the transitional-phrase filter. -/
def afterContinueFilter (response : RResponse) : List String :=
  (collectTexts (msgsOf response)).filter continueKeep

/-- The combined info-question flag, computed — as in the source — after the
transitional-phrase filter has already run over the batch. -/
def hasInfoQuestion (response : RResponse) (dom : List DomMsg) : Bool :=
  hasInfoQuestionInDOM dom || hasInfoQuestionInResponse (afterContinueFilter response)

/-- Stage after the placeholder/fallback filter. -/
def afterFallbackFilter (response : RResponse) (dom : List DomMsg) : List String :=
  fallbackFilter (hasInfoQuestion response dom) (afterContinueFilter response)

/-- Stage after the "Great … continue" pair filter. -/
def afterPairFilter (response : RResponse) (dom : List DomMsg) : List String :=
  pairFilter (afterFallbackFilter response dom)

/-- Stage after the booking-summary filter: the messages entering the
duplicate filter. -/
def afterSummaryFilter (response : RResponse) (dom : List DomMsg) : List String :=
  summaryFilter (afterPairFilter response dom)

/-- Stage after the duplicate filter. -/
def afterDedup (response : RResponse) (dom : List DomMsg) : List String :=
  dedupFilter (afterSummaryFilter response dom)

/-- Stage after the greeting collapse. -/
def afterGreetingCollapse (response : RResponse) (dom : List DomMsg) : List String :=
  greetingCollapse (afterDedup response dom)

/-- Stage after the repeated-guests-question filter. -/
def afterGuestsFilter (response : RResponse) (dom : List DomMsg) : List String :=
  guestsFilter (afterGreetingCollapse response dom)

/-- The messages `handleRasaResponse` displays for the batch, after all
suppression filters. -/
def filteredBatch (response : RResponse) (dom : List DomMsg) : List String :=
  existGreetFilter (existingGreeting dom) (afterGuestsFilter response dom)

/-- The lowercased, trimmed text of the most recent rendered user turn. -/
def lastUserText (dom : List DomMsg) : Option String :=
  ((dom.filter fun d => d.isUser).getLast?).map fun d => jsTrim (jsToLower d.text)

/-- Whether the most recent user turn is a date-range confirmation echo. -/
def isDateConfirmation (dom : List DomMsg) : Bool :=
  match lastUserText dom with
  | some lastText => jsIncludes lastText "arrival date:" && jsIncludes lastText "departure date:"
  | none => false

/-- The greeting words the synthesis branch recognizes. -/
def greetingWords : List String :=
  ["hello", "hi", "hey", "good morning", "good afternoon", "good evening", "greetings", "hallo"]

/-- Whether the most recent user turn matches a greeting pattern. -/
def isGreetingUser (dom : List DomMsg) : Bool :=
  match lastUserText dom with
  | some lastText => greetingWords.any fun word => jsIncludes lastText word
  | none => false

/-- The synthesized greeting reply. -/
def helloReply : String := "Hello! How can I help you today?"

/-- The synthesized processing placeholder. -/
def processingReply : String := "I'm processing your request. Please give me a moment."

/-- What one `handleRasaResponse` call renders: the calendar widgets handed
to `addCalendarWidget`, the filtered batch messages appended as bot turns,
and the synthesized turn when the fallback branch ran. -/
structure HandleResult where
  widgets : List JsonMessage
  texts : List String
  synthesized : Option String
  deriving DecidableEq

/-- `handleRasaResponse(response, timestamp)` projected onto what it renders.
A null response returns at once.  Otherwise widgets and filtered texts are
rendered; when neither a widget-with-text nor any text set `messageAdded`,
and the response carries no actions, the synthesis branch runs: nothing for a
date confirmation, a greeting reply when the last user turn greets, a
processing placeholder otherwise. -/
def handleRasaResponse (response : RResponse) (dom : List DomMsg) : HandleResult :=
  if response = .nullResp then
    { widgets := [], texts := [], synthesized := none }
  else if widgetTextAdded (msgsOf response) || !(filteredBatch response dom).isEmpty then
    { widgets := collectWidgets (msgsOf response), texts := filteredBatch response dom
      synthesized := none }
  else if !(actionsOf response).isEmpty then
    { widgets := collectWidgets (msgsOf response), texts := filteredBatch response dom
      synthesized := none }
  else if isDateConfirmation dom then
    { widgets := collectWidgets (msgsOf response), texts := filteredBatch response dom
      synthesized := none }
  else if isGreetingUser dom then
    { widgets := collectWidgets (msgsOf response), texts := filteredBatch response dom
      synthesized := some helloReply }
  else
    { widgets := collectWidgets (msgsOf response), texts := filteredBatch response dom
      synthesized := some processingReply }

/-- How many feed entries the call rendered. -/
def renderedCount (r : HandleResult) : Nat :=
  r.widgets.length + r.texts.length + (match r.synthesized with | some _ => 1 | none => 0)

/-- The number of display entries with normalized key `key` in a list. -/
def countKey (xs : List String) (key : String) : Nat :=
  (xs.map normKey).count key

/-- Claim C5's premise read off the spec's words: the raw batch (before any
filtering) contains a recognized info-question prompt.  Kept separate from
`hasInfoQuestion`, which is what the source computes (after the
transitional-phrase filter). -/
def specBatchContainsInfoPrompt (response : RResponse) : Bool :=
  (collectTexts (msgsOf response)).any fun m =>
    infoPhrases.any fun phrase => jsIncludes (jsToLower m) phrase

end Handler

/-! ## Date-range picker (`addCalendarWidget`, `frontend/js/app.js`)

In booking mode the widget keeps `selectedArrivalDate` / `selectedDepartureDate`
in its closure.  A click with no arrival (or with both dates already set)
starts a new selection; a click with only the arrival set either sets the
departure and shows the confirm button (strictly later date) or alerts and
leaves the selection unchanged.  The confirm button, when both dates are set,
emits one combined slot message through the transport helper.  Dates are
midnight-normalized, so the JS `Date` comparisons agree with lexicographic
order on (year, month, day), which `serial` linearizes. -/

namespace Calendar

/-- The widget's `monthNames` table (month is 0-based, as in JS). -/
def monthNames : List String :=
  ["January", "February", "March", "April", "May", "June",
   "July", "August", "September", "October", "November", "December"]

/-- A midnight-normalized calendar date. -/
structure HDate where
  year : Nat
  month : Nat
  day : Nat
  deriving DecidableEq

/-- Linearization of the date order: for calendar dates (month ≤ 11,
1 ≤ day ≤ 31) it orders exactly as the JS `Date` comparison. -/
def serial (d : HDate) : Nat := d.year * 372 + d.month * 31 + d.day

/-- `toLocaleDateString('en-GB', {day:'numeric', month:'long', year:'numeric'})`. -/
def formatGB (d : HDate) : String :=
  toString d.day ++ " " ++ monthNames.getD d.month "" ++ " " ++ toString d.year

/-- The combined slot message the confirm handler builds:
`"arrival date: " + arrivalStr + ", departure date: " + departureStr`. -/
def combinedMessage (arrival departure : HDate) : String :=
  "arrival date: " ++ formatGB arrival ++ ", departure date: " ++ formatGB departure

/-- The `alert` text for a departure not after the arrival. -/
def invalidAlert : String := "Departure date must be after arrival date"

/-- The widget's interactive state: the two selections, the confirm button's
visibility, the alerts surfaced to the user, and the messages sent through
the transport helper. -/
structure PickerState where
  selectedArrivalDate : Option HDate
  selectedDepartureDate : Option HDate
  confirmVisible : Bool
  alerts : List String
  sent : List String
  deriving DecidableEq

/-- The date-cell click handler in booking mode. -/
def clickDateBooking (cellDate : HDate) (st : PickerState) : PickerState :=
  match st.selectedArrivalDate, st.selectedDepartureDate with
  | none, _ =>
    { st with selectedArrivalDate := some cellDate, selectedDepartureDate := none }
  | some _, some _ =>
    { st with selectedArrivalDate := some cellDate, selectedDepartureDate := none }
  | some arrival, none =>
    if serial arrival < serial cellDate then
      { st with selectedDepartureDate := some cellDate, confirmVisible := true }
    else
      { st with alerts := st.alerts ++ [invalidAlert] }

/-- The confirm-button click handler: with both dates selected it sends the
combined message (`sendToRasaWithoutUserMessage`) and hides the button;
otherwise it does nothing. -/
def confirmClick (st : PickerState) : PickerState :=
  match st.selectedArrivalDate, st.selectedDepartureDate with
  | some arrival, some departure =>
    { st with
      sent := st.sent ++ [combinedMessage arrival departure]
      confirmVisible := false }
  | _, _ => st

end Calendar

/-! ## Page-level `sendMessage` booking reset (`frontend/js/app.js`)

Before the fetch is issued, `sendMessage` lowercases and trims the user
message and, when it contains a booking-start phrase, nulls the seven booking
slot keys inside `conversationContext.slots` (creating `slots` when absent).
The context object that reset produces is exactly the one serialized into the
request body. -/

namespace ChatPage

/-- A JS object used as a slot map: ordered key/value pairs, `none` playing
JS `null`. -/
abbrev SlotMap := List (String × Option String)

/-- JS property assignment `slots[key] = v`: overwrite in place or append. -/
def setSlot : SlotMap → String → Option String → SlotMap
  | [], key, v => [(key, v)]
  | (k, w) :: rest, key, v =>
    if k == key then (key, v) :: rest else (k, w) :: setSlot rest key v

/-- JS property read: `some w` when the key is present (with `w = none` for a
`null` value), `none` when the key is absent. -/
def getSlot : SlotMap → String → Option (Option String)
  | [], _ => none
  | (k, w) :: rest, key => if k == key then some w else getSlot rest key

/-- The page's `conversationContext`, as far as the booking reset reads it:
an optional `slots` object. -/
structure ConversationContext where
  slots : Option SlotMap
  deriving DecidableEq

/-- The `bookingPhrases` array of `sendMessage`. -/
def bookingPhrases : List String :=
  ["book a room", "book room", "i want to book", "reserve a room",
   "make a reservation", "reserve", "booking"]

/-- The seven booking slot keys the reset nulls. -/
def bookingSlotKeys : List String :=
  ["guests", "room_type", "arrival_date", "departure_date", "nights", "rooms", "payment_option"]

/-- `bookingPhrases.some(phrase => messageLower.includes(phrase))` over the
lowercased, trimmed message. -/
def detectsBookingStart (message : String) : Bool :=
  bookingPhrases.any fun phrase => jsIncludes (jsTrim (jsToLower message)) phrase

/-- The seven assignments of the reset block, in source order. -/
def resetBookingSlots (slots : SlotMap) : SlotMap :=
  setSlot (setSlot (setSlot (setSlot (setSlot (setSlot (setSlot slots
    "guests" none) "room_type" none) "arrival_date" none) "departure_date" none)
    "nights" none) "rooms" none) "payment_option" none

/-- The conversation context as it stands when the fetch for `message` is
issued: reset when a booking-start phrase is detected, untouched otherwise. -/
def contextForRequest (message : String) (ctx : ConversationContext) : ConversationContext :=
  if detectsBookingStart message then
    { ctx with slots := some (resetBookingSlots (ctx.slots.getD [])) }
  else
    ctx

end ChatPage

/-! ## Persistence collaborator (`db.js`) -/

namespace DB

/-- The record shape `saveConversation` receives and stores. -/
structure ConversationRecord where
  sender : String
  message : String
  context : ChatPage.ConversationContext
  timestamp : String
  deriving DecidableEq

/-- `saveConversation(conversationData)` at save instant `nowIso`: the stored
record is `{...conversationData, timestamp: new Date().toISOString()}`. -/
def saveConversation (conversationData : ConversationRecord) (nowIso : String) :
    ConversationRecord :=
  { conversationData with timestamp := nowIso }

end DB

/-! ## Concrete scenario inputs used by the witnesses and counterexamples -/

namespace Examples

/-- A fresh transport client: connected, empty pending map. -/
def freshAPI : RasaAPI.APIState :=
  { isConnected := true, lastCheckTime := 0, pendingRequests := [], backendCalls := 0 }

/-- First of two overlapping sends of `"hello"`, entering at clock 1000 ms. -/
def enterFirst : RasaAPI.EnterResult × RasaAPI.APIState :=
  RasaAPI.sendMessageEnter "hello" [] 1000 freshAPI

/-- Second send of the same `"hello"` with the same context, entering one
millisecond later, while the first request is still pending. -/
def enterSecond : RasaAPI.EnterResult × RasaAPI.APIState :=
  RasaAPI.sendMessageEnter "hello" [] 1001 enterFirst.2

/-- A transport client that has just observed an outage. -/
def downAPI : RasaAPI.APIState :=
  { isConnected := false, lastCheckTime := 1000, pendingRequests := [], backendCalls := 0 }

/-- A trivial parsed body for HTTP-response outcomes. -/
def emptyBody : RasaAPI.RasaResponse := { error := none, messages := [], context := [] }

/-- A response with no messages but a non-empty `actions` array. -/
def actionsOnlyResponse : Handler.RResponse := .obj (some []) none (some ["action_listen"])

/-- A feed whose most recent user turn is an ordinary question. -/
def plainUserDom : List Handler.DomMsg :=
  [{ isUser := true, text := "what rooms do you have" }]

/-- A response with no messages and no actions. -/
def emptyResponse : Handler.RResponse := .obj (some []) none none

/-- A feed that already greeted and whose most recent user turn greets. -/
def greetingDom : List Handler.DomMsg :=
  [{ isUser := false, text := "Welcome to StayAssist. How can I assist you today?" },
   { isUser := true, text := "hello there" }]

/-- The recognized info-question prompt as the backend utters it. -/
def continueBookingPrompt : String := "Shall we continue with your booking?"

/-- A fallback utterance of the backend. -/
def fallbackUtterance : String :=
  "I'm sorry I am unable to understand you. Could you please rephrase?"

/-- A batch that asks the info question and then falls back. -/
def promptThenFallback : Handler.RResponse :=
  .arr [{ text := some continueBookingPrompt }, { text := some fallbackUtterance }]

/-- An empty rendered feed. -/
def emptyDom : List Handler.DomMsg := []

/-- A feed whose tail contains an info-question prompt. -/
def infoDom : List Handler.DomMsg :=
  [{ isUser := false, text := "Is there anything else you'd like to know?" }]

/-- A batch holding just a fallback utterance. -/
def fallbackOnly : Handler.RResponse := .arr [{ text := some fallbackUtterance }]

/-- The repeated guest-count question. -/
def guestsQuestion : String := "For how many guests?"

/-- A batch opening with a greeting and repeating the guests question. -/
def greetThenDuplicates : Handler.RResponse :=
  .arr [{ text := some "Welcome! How can I help you today?" },
        { text := some guestsQuestion },
        { text := some guestsQuestion }]

/-- A booking-mode picker with the arrival picked (10 October 2025; JS months
are 0-based). -/
def arrivalPicked : Calendar.PickerState :=
  { selectedArrivalDate := some { year := 2025, month := 9, day := 10 }
    selectedDepartureDate := none
    confirmVisible := false
    alerts := []
    sent := [] }

/-- 10 October 2025. -/
def octTenth : Calendar.HDate := { year := 2025, month := 9, day := 10 }

/-- 15 October 2025. -/
def octFifteenth : Calendar.HDate := { year := 2025, month := 9, day := 15 }

/-- 8 October 2025. -/
def octEighth : Calendar.HDate := { year := 2025, month := 9, day := 8 }

/-- A context with stale slot values from a previous booking. -/
def staleContext : ChatPage.ConversationContext :=
  { slots := some [("guests", some "4"), ("room_type", some "suite")] }

end Examples

/-! ## Theorems -/

/-- `(l ++ [a]).contains a` holds — the request id just stored is found by
the next lookup. -/
theorem contains_append_singleton (l : List String) (a : String) :
    (l ++ [a]).contains a = true := by simp

/-- The synchronous prefix of `sendMessage`, when the fail-fast guard does
not fire and no identical request is pending, starts a backend call and
stores the pending entry. -/
theorem sendMessageEnter_executed (message : String) (context : RasaAPI.Ctx) (now : Nat)
    (st : RasaAPI.APIState)
    (hfast : ¬(st.isConnected = false ∧ now - st.lastCheckTime < 5000))
    (hnew : st.pendingRequests.contains (RasaAPI.generateRequestId message context now) = false) :
    RasaAPI.sendMessageEnter message context now st =
      (.executed (RasaAPI.generateRequestId message context now),
        { st with
          pendingRequests := st.pendingRequests ++ [RasaAPI.generateRequestId message context now]
          backendCalls := st.backendCalls + 1 }) := by
  unfold RasaAPI.sendMessageEnter
  rw [if_neg hfast]
  have hnew2 : RasaAPI.generateRequestId message context now ∉ st.pendingRequests := by
    simpa using hnew
  simp [hnew2]

/-- The synchronous prefix of `sendMessage`, when an identical request id is
pending, returns that pending promise and leaves the state untouched. -/
theorem sendMessageEnter_joined (message : String) (context : RasaAPI.Ctx) (now : Nat)
    (st : RasaAPI.APIState)
    (hfast : ¬(st.isConnected = false ∧ now - st.lastCheckTime < 5000))
    (hpend : st.pendingRequests.contains (RasaAPI.generateRequestId message context now) = true) :
    RasaAPI.sendMessageEnter message context now st =
      (.joinedPending (RasaAPI.generateRequestId message context now), st) := by
  unfold RasaAPI.sendMessageEnter
  rw [if_neg hfast]
  have hpend2 : RasaAPI.generateRequestId message context now ∈ st.pendingRequests := by
    simpa using hpend
  simp [hpend2]

/-- C1 (counterexample): two `sendMessage` calls with the same text
`"hello"` and the same context, the second entering 1 ms after the first
while the first request is still pending, are both `executed`: the
fingerprints differ (`"hello_1000"` vs `"hello_1001"`), so the second call
does not find the pending entry and a second backend call is issued —
refuting "exactly one backend call is issued". -/
theorem claim1_counterexample :
    Examples.enterFirst.1 = .executed "hello_1000" ∧
    Examples.enterFirst.2.pendingRequests = ["hello_1000"] ∧
    Examples.enterSecond.1 = .executed "hello_1001" ∧
    Examples.enterSecond.2.backendCalls = 2 := by decide

/-- C1 (amended): in-flight de-duplication does occur exactly when the two
calls produce the same fingerprint, i.e. same message text (first 50
characters) and the same `Date.now()` millisecond: the first call starts one
backend call, and a second call with the same text, context and clock
millisecond joins the pending request without issuing another backend call
or changing the state. -/
theorem claim1_dedup_same_millisecond (message : String) (context : RasaAPI.Ctx) (now : Nat)
    (st : RasaAPI.APIState)
    (hfast : ¬(st.isConnected = false ∧ now - st.lastCheckTime < 5000))
    (hnew : st.pendingRequests.contains (RasaAPI.generateRequestId message context now) = false) :
    (RasaAPI.sendMessageEnter message context now st).1 =
      .executed (RasaAPI.generateRequestId message context now) ∧
    ((RasaAPI.sendMessageEnter message context now st).2).backendCalls = st.backendCalls + 1 ∧
    (RasaAPI.sendMessageEnter message context now
        ((RasaAPI.sendMessageEnter message context now st).2)).1 =
      .joinedPending (RasaAPI.generateRequestId message context now) ∧
    (RasaAPI.sendMessageEnter message context now
        ((RasaAPI.sendMessageEnter message context now st).2)).2 =
      (RasaAPI.sendMessageEnter message context now st).2 := by
  have h1 := sendMessageEnter_executed message context now st hfast hnew
  have hpend :
      (({ st with
          pendingRequests := st.pendingRequests ++ [RasaAPI.generateRequestId message context now]
          backendCalls := st.backendCalls + 1 } : RasaAPI.APIState)).pendingRequests.contains
        (RasaAPI.generateRequestId message context now) = true := by
    simp
  have h2 := sendMessageEnter_joined message context now
    { st with
      pendingRequests := st.pendingRequests ++ [RasaAPI.generateRequestId message context now]
      backendCalls := st.backendCalls + 1 }
    hfast hpend
  refine ⟨?_, ?_, ?_, ?_⟩ <;> simp [h1, h2]

/-- C1 (witness): the amended statement at the concrete overlapping-send
scenario: `"hello"` sent twice at the same millisecond 1000 on a fresh
client. -/
theorem claim1_witness :
    (RasaAPI.sendMessageEnter "hello" [] 1000 Examples.freshAPI).1 =
      .executed (RasaAPI.generateRequestId "hello" [] 1000) ∧
    ((RasaAPI.sendMessageEnter "hello" [] 1000 Examples.freshAPI).2).backendCalls =
      Examples.freshAPI.backendCalls + 1 ∧
    (RasaAPI.sendMessageEnter "hello" [] 1000
        ((RasaAPI.sendMessageEnter "hello" [] 1000 Examples.freshAPI).2)).1 =
      .joinedPending (RasaAPI.generateRequestId "hello" [] 1000) ∧
    (RasaAPI.sendMessageEnter "hello" [] 1000
        ((RasaAPI.sendMessageEnter "hello" [] 1000 Examples.freshAPI).2)).2 =
      (RasaAPI.sendMessageEnter "hello" [] 1000 Examples.freshAPI).2 :=
  claim1_dedup_same_millisecond "hello" [] 1000 Examples.freshAPI (by decide) (by decide)

/-- Three consecutive aborts exhaust the retry budget: `_executeRequest`
settles with the synthesized error response after 3 attempts, the
availability fields marked disconnected. -/
theorem execLoop_all_aborts (times : Nat → Nat) (context : RasaAPI.Ctx) (conn : RasaAPI.Conn) :
    RasaAPI.executeRequest (fun _ => .abort) times context conn =
      (.errorResp (RasaAPI.createErrorResponse RasaAPI.abortError.message
          RasaAPI.backendApology context),
        { isConnected := false, lastCheckTime := times 2 }, 3) := rfl

/-- C3: when the backend call times out on the initial attempt and on both
retries, `sendMessage` settles normally (the model's totality: every throw
inside the loop is caught) with the synthesized error response — shaped like
a normal backend response, `{error, messages:[{text: apology}], context}` —
and the availability state `isConnected` is false afterwards. -/
theorem claim3_three_timeouts (message : String) (context : RasaAPI.Ctx) (now : Nat)
    (times : Nat → Nat) (st : RasaAPI.APIState)
    (hfast : ¬(st.isConnected = false ∧ now - st.lastCheckTime < 5000))
    (hnew : st.pendingRequests.contains (RasaAPI.generateRequestId message context now) = false) :
    (RasaAPI.sendMessageResolved message context now (fun _ => .abort) times st).1 =
      .awaited (.errorResp (RasaAPI.createErrorResponse RasaAPI.abortError.message
        RasaAPI.backendApology context)) ∧
    ((RasaAPI.sendMessageResolved message context now (fun _ => .abort) times st).2).isConnected =
      false := by
  unfold RasaAPI.sendMessageResolved
  rw [sendMessageEnter_executed message context now st hfast hnew]
  simp [execLoop_all_aborts]

/-- C3 (witness): the three-timeout scenario on a fresh client. -/
theorem claim3_witness :
    (RasaAPI.sendMessageResolved "book a room" [] 1000 (fun _ => .abort) (fun _ => 2000)
        Examples.freshAPI).1 =
      .awaited (.errorResp (RasaAPI.createErrorResponse RasaAPI.abortError.message
        RasaAPI.backendApology [])) ∧
    ((RasaAPI.sendMessageResolved "book a room" [] 1000 (fun _ => .abort) (fun _ => 2000)
        Examples.freshAPI).2).isConnected = false :=
  claim3_three_timeouts "book a room" [] 1000 (fun _ => 2000) Examples.freshAPI
    (by decide) (by decide)

/-- C8: a `sendMessage` call made while the availability state is
unavailable and the last check was under the 5000 ms grace window returns the
synthesized error response immediately, with the state — in particular the
backend-call counter — untouched, and the response's user-facing text is an
apology. -/
theorem claim8_fail_fast (message : String) (context : RasaAPI.Ctx) (now : Nat)
    (outcomes : Nat → RasaAPI.FetchOutcome) (times : Nat → Nat) (st : RasaAPI.APIState)
    (hdown : st.isConnected = false) (hwin : now - st.lastCheckTime < 5000) :
    RasaAPI.sendMessageResolved message context now outcomes times st =
      (.immediate (RasaAPI.createErrorResponse "Server connection issue"
        RasaAPI.connectApology context), st) ∧
    jsIncludes RasaAPI.connectApology "I'm sorry" = true := by
  constructor
  · unfold RasaAPI.sendMessageResolved RasaAPI.sendMessageEnter
    rw [if_pos ⟨hdown, hwin⟩]
  · decide

/-- C8 (witness): a client that saw an outage at 1000 ms, called again at
3000 ms. -/
theorem claim8_witness :
    RasaAPI.sendMessageResolved "hello" [] 3000 (fun _ => .abort) (fun _ => 0) Examples.downAPI =
      (.immediate (RasaAPI.createErrorResponse "Server connection issue"
        RasaAPI.connectApology []), Examples.downAPI) ∧
    jsIncludes RasaAPI.connectApology "I'm sorry" = true :=
  claim8_fail_fast "hello" [] 3000 (fun _ => .abort) (fun _ => 0) Examples.downAPI
    (by decide) (by decide)

/-- C9: a request whose fetch completes with an HTTP response marks the
client connected and records the check time before the status is examined;
a non-2xx status (whose error message does not contain `NetworkError`, as no
real HTTP status text does) is surfaced after exactly one attempt — no
retry — with the client still marked available.  A 2xx response likewise
marks the client connected. -/
theorem claim9_http_error_marks_connected (status : Nat) (statusText : String)
    (body : RasaAPI.RasaResponse) (times : Nat → Nat) (context : RasaAPI.Ctx)
    (conn : RasaAPI.Conn)
    (hmsg : jsIncludes (RasaAPI.serverErrorOf status statusText).message "NetworkError" = false) :
    RasaAPI.executeRequest (fun _ => .httpRes false status statusText body) times context conn =
      (.errorResp (RasaAPI.createErrorResponse (RasaAPI.serverErrorOf status statusText).message
          RasaAPI.backendApology context),
        { isConnected := true, lastCheckTime := times 0 }, 1) ∧
    RasaAPI.executeRequest (fun _ => .httpRes true status statusText body) times context conn =
      (.success body, { isConnected := true, lastCheckTime := times 0 }, 1) := by
  constructor
  · have habort : ((RasaAPI.serverErrorOf status statusText).name == "AbortError") = false := rfl
    have hretry : RasaAPI.retriable (RasaAPI.serverErrorOf status statusText) = false := by
      unfold RasaAPI.retriable
      rw [habort, hmsg]
      rfl
    unfold RasaAPI.executeRequest RasaAPI.maxRetries RasaAPI.execLoop RasaAPI.attemptFetch
    simp [hretry]
  · rfl

/-- C9 (witness): a 404 with status text `"Not Found"` on a client that was
marked disconnected: one attempt, surfaced error, client marked available. -/
theorem claim9_witness :
    RasaAPI.executeRequest (fun _ => .httpRes false 404 "Not Found" Examples.emptyBody)
        (fun _ => 42) [] { isConnected := false, lastCheckTime := 7 } =
      (.errorResp (RasaAPI.createErrorResponse (RasaAPI.serverErrorOf 404 "Not Found").message
          RasaAPI.backendApology []),
        { isConnected := true, lastCheckTime := 42 }, 1) ∧
    RasaAPI.executeRequest (fun _ => .httpRes true 404 "Not Found" Examples.emptyBody)
        (fun _ => 42) [] { isConnected := false, lastCheckTime := 7 } =
      (.success Examples.emptyBody, { isConnected := true, lastCheckTime := 42 }, 1) :=
  claim9_http_error_marks_connected 404 "Not Found" Examples.emptyBody (fun _ => 42) []
    { isConnected := false, lastCheckTime := 7 } (by decide)

/-- C10: the record stored by `saveConversation` carries the save-time
instant as its `timestamp`, whatever timestamp the caller supplied — the
caller's value is overwritten by the spread — while the other fields are
stored as given. -/
theorem claim10_save_timestamp (conversationData : DB.ConversationRecord) (nowIso : String) :
    (DB.saveConversation conversationData nowIso).timestamp = nowIso ∧
    (DB.saveConversation conversationData nowIso).sender = conversationData.sender ∧
    (DB.saveConversation conversationData nowIso).message = conversationData.message ∧
    (DB.saveConversation conversationData nowIso).context = conversationData.context :=
  ⟨rfl, rfl, rfl, rfl⟩

/-! ### Reconciler pipeline lemmas -/

/-- The repeated-guests-question loop only drops elements. -/
theorem keepFirstGuests_sublist (xs : List String) :
    ∀ foundFirst, List.Sublist (Handler.keepFirstGuests xs foundFirst) xs := by
  induction xs with
  | nil => intro foundFirst; simp [Handler.keepFirstGuests]
  | cons m rest ih =>
    intro foundFirst
    unfold Handler.keepFirstGuests
    split
    · split
      · exact List.Sublist.cons _ (ih foundFirst)
      · exact List.Sublist.cons₂ _ (ih true)
    · exact List.Sublist.cons₂ _ (ih foundFirst)

/-- The greeting collapse only drops elements. -/
theorem greetingCollapse_sublist (xs : List String) :
    List.Sublist (Handler.greetingCollapse xs) xs := by
  unfold Handler.greetingCollapse
  split
  · split
    · split
      · exact List.Sublist.cons₂ _ (List.nil_sublist _)
      · exact List.Sublist.refl _
    · exact List.Sublist.refl _
  · exact List.Sublist.refl _

/-- The "Great … continue" pair filter only drops elements. -/
theorem pairFilter_sublist (xs : List String) :
    List.Sublist (Handler.pairFilter xs) xs := by
  unfold Handler.pairFilter
  split
  · split
    · exact List.Sublist.cons₂ _ (List.nil_sublist _)
    · exact List.Sublist.refl _
  · exact List.Sublist.refl _

/-- The booking-summary filter only drops elements. -/
theorem summaryFilter_sublist (xs : List String) :
    List.Sublist (Handler.summaryFilter xs) xs := by
  unfold Handler.summaryFilter
  split
  · exact List.filter_sublist xs
  · exact List.Sublist.refl _

/-- The repeated-guests-question filter only drops elements. -/
theorem guestsFilter_sublist (xs : List String) :
    List.Sublist (Handler.guestsFilter xs) xs := by
  unfold Handler.guestsFilter
  split
  · exact keepFirstGuests_sublist xs false
  · exact List.Sublist.refl _

/-- The session-greeting filter only drops elements. -/
theorem existGreetFilter_sublist (alreadyGreeted : Bool) (xs : List String) :
    List.Sublist (Handler.existGreetFilter alreadyGreeted xs) xs := by
  unfold Handler.existGreetFilter
  split
  · exact List.filter_sublist xs
  · exact List.Sublist.refl _

/-- The duplicate-collapse loop only drops elements. -/
theorem dedupAux_sublist (xs : List String) :
    ∀ seen, List.Sublist (Handler.dedupAux xs seen) xs := by
  induction xs with
  | nil => intro seen; simp [Handler.dedupAux]
  | cons m rest ih =>
    intro seen
    unfold Handler.dedupAux
    split
    · exact List.Sublist.cons _ (ih seen)
    · exact List.Sublist.cons₂ _ (ih _)

/-- An element surviving the duplicate collapse was not seen before the
collapse started. -/
theorem dedupAux_not_mem_seen :
    ∀ (xs seen : List String) (m : String), m ∈ Handler.dedupAux xs seen →
      Handler.normKey m ∉ seen := by
  intro xs
  induction xs with
  | nil => intro seen m h; simp [Handler.dedupAux] at h
  | cons x rest ih =>
    intro seen m h
    unfold Handler.dedupAux at h
    split at h
    · exact ih seen m h
    · rename_i hnin
      rcases List.mem_cons.mp h with rfl | hm
      · exact hnin
      · intro hc
        exact ih _ m hm (List.mem_cons_of_mem _ hc)

/-- An element surviving the duplicate collapse is the first element of the
input with its normalized key. -/
theorem dedupAux_find :
    ∀ (xs seen : List String) (m : String), m ∈ Handler.dedupAux xs seen →
      xs.find? (fun x => decide (Handler.normKey x = Handler.normKey m)) = some m := by
  intro xs
  induction xs with
  | nil => intro seen m h; simp [Handler.dedupAux] at h
  | cons x rest ih =>
    intro seen m h
    unfold Handler.dedupAux at h
    split at h
    · rename_i hin
      have hne : Handler.normKey x ≠ Handler.normKey m := by
        intro he
        exact dedupAux_not_mem_seen rest seen m h (he ▸ hin)
      rw [List.find?_cons_of_neg _ (by simpa using hne)]
      exact ih seen m h
    · rename_i hnin
      rcases List.mem_cons.mp h with rfl | hm
      · rw [List.find?_cons_of_pos _ (by simp)]
      · have hne : Handler.normKey x ≠ Handler.normKey m := by
          have hnm := dedupAux_not_mem_seen rest (Handler.normKey x :: seen) m hm
          intro he
          exact hnm (he ▸ List.mem_cons_self _ _)
        rw [List.find?_cons_of_neg _ (by simpa using hne)]
        exact ih _ m hm

/-- A key already seen never reappears in the duplicate collapse's output. -/
theorem dedupAux_countKey_zero :
    ∀ (xs seen : List String) (key : String), key ∈ seen →
      Handler.countKey (Handler.dedupAux xs seen) key = 0 := by
  intro xs
  induction xs with
  | nil => intro seen key _; simp [Handler.dedupAux, Handler.countKey]
  | cons x rest ih =>
    intro seen key hk
    unfold Handler.dedupAux
    split
    · exact ih seen key hk
    · rename_i hnin
      have hne : key ≠ Handler.normKey x := fun he => hnin (he ▸ hk)
      unfold Handler.countKey
      rw [List.map_cons, List.count_cons_of_ne hne]
      exact ih (Handler.normKey x :: seen) key (List.mem_cons_of_mem _ hk)

/-- The duplicate collapse leaves at most one element per normalized key. -/
theorem dedupAux_countKey_le :
    ∀ (xs seen : List String) (key : String),
      Handler.countKey (Handler.dedupAux xs seen) key ≤ 1 := by
  intro xs
  induction xs with
  | nil => intro seen key; simp [Handler.dedupAux, Handler.countKey]
  | cons x rest ih =>
    intro seen key
    unfold Handler.dedupAux
    split
    · exact ih seen key
    · by_cases hk : key = Handler.normKey x
      · subst hk
        unfold Handler.countKey
        rw [List.map_cons, List.count_cons_self]
        have h0 := dedupAux_countKey_zero rest (Handler.normKey x :: seen) (Handler.normKey x)
          (List.mem_cons_self _ _)
        unfold Handler.countKey at h0
        omega
      · unfold Handler.countKey
        rw [List.map_cons, List.count_cons_of_ne hk]
        exact ih _ key

/-- Dropping elements cannot increase the count of a normalized key. -/
theorem countKey_le_of_sublist (xs ys : List String) (key : String)
    (h : List.Sublist ys xs) : Handler.countKey ys key ≤ Handler.countKey xs key := by
  unfold Handler.countKey
  exact (h.map Handler.normKey).count_le key

/-- The rendered batch is a selection of the duplicate collapse's output:
the three rules after the duplicate filter only drop elements. -/
theorem filteredBatch_sublist_dedup (response : Handler.RResponse) (dom : List Handler.DomMsg) :
    List.Sublist (Handler.filteredBatch response dom) (Handler.afterDedup response dom) :=
  ((existGreetFilter_sublist _ _).trans (guestsFilter_sublist _)).trans
    (greetingCollapse_sublist _)

/-- The rendered batch is a selection of the fallback filter's output. -/
theorem filteredBatch_sublist_fallback (response : Handler.RResponse) (dom : List Handler.DomMsg) :
    List.Sublist (Handler.filteredBatch response dom) (Handler.afterFallbackFilter response dom) :=
  (((filteredBatch_sublist_dedup response dom).trans (dedupAux_sublist _ [])).trans
    (summaryFilter_sublist _)).trans (pairFilter_sublist _)

/-- The `texts` component of a handler call: empty for a null response, the
filtered batch otherwise. -/
theorem handle_texts_eq (response : Handler.RResponse) (dom : List Handler.DomMsg) :
    (Handler.handleRasaResponse response dom).texts =
      if response = Handler.RResponse.nullResp then [] else Handler.filteredBatch response dom := by
  unfold Handler.handleRasaResponse
  split
  · rfl
  · repeat' split
    all_goals rfl

/-- A kept message of the fallback filter, when the info question was seen,
is not a fallback utterance. -/
theorem fallbackKeep_not_fallback (xs : List String) (m : String)
    (h : Handler.fallbackKeep true xs m = true) :
    Handler.isFallbackLower (jsToLower m) = false := by
  by_cases hf : Handler.isFallbackLower (jsToLower m) = true
  · unfold Handler.fallbackKeep at h
    rw [hf] at h
    simp at h
  · simpa using hf

/-- A calendar message carries a structured payload. -/
theorem isCalendarMsg_some (m : Handler.RMsg) (h : Handler.isCalendarMsg m = true) :
    ∃ j, m.json_message = some j := by
  unfold Handler.isCalendarMsg at h
  cases hj : m.json_message with
  | none => rw [hj] at h; exact absurd h (by simp)
  | some j => exact ⟨j, rfl⟩

/-- When a calendar message set `messageAdded`, a widget was rendered. -/
theorem collectWidgets_ne_nil (msgs : List Handler.RMsg)
    (h : Handler.widgetTextAdded msgs = true) : Handler.collectWidgets msgs ≠ [] := by
  induction msgs with
  | nil => simp [Handler.widgetTextAdded] at h
  | cons m rest ih =>
    by_cases hc : Handler.isCalendarMsg m = true
    · obtain ⟨j, hj⟩ := isCalendarMsg_some m hc
      unfold Handler.collectWidgets
      rw [List.filterMap_cons]
      simp [hc, hj]
    · have hc2 : Handler.isCalendarMsg m = false := by simpa using hc
      unfold Handler.widgetTextAdded at h
      rw [List.any_cons] at h
      rw [hc2] at h
      simp only [Bool.false_and, Bool.false_or] at h
      have hskip : Handler.collectWidgets (m :: rest) = Handler.collectWidgets rest := by
        unfold Handler.collectWidgets
        rw [List.filterMap_cons, hc2]
        rfl
      rw [hskip]
      exact ih h

/-! ### The claims about the reconciler -/

/-- C2 (counterexample): a response carrying no messages but a non-empty
`actions` array, received after an ordinary (non-date-confirmation) user
question, renders nothing: the synthesis branch is guarded by the actions
check, so no turn and no synthesized fallback appears — refuting "only a
just-shown client-side date confirmation justifies rendering nothing". -/
theorem claim2_counterexample :
    Handler.isDateConfirmation Examples.plainUserDom = false ∧
    Examples.actionsOnlyResponse ≠ Handler.RResponse.nullResp ∧
    Handler.renderedCount
      (Handler.handleRasaResponse Examples.actionsOnlyResponse Examples.plainUserDom) = 0 := by
  decide

/-- C2 (amended): for every non-null backend response carrying no actions
whose preceding user turn is not a date-range confirmation echo, the handler
renders at least one entry; and when no batch message and no widget was
rendered, the synthesized turn is the friendly greeting exactly when the most
recent user utterance matches a greeting pattern, and the generic processing
placeholder otherwise.  (A response with a non-empty `actions` array may
render nothing, as the counterexample shows.) -/
theorem claim2_renders_or_synthesizes (response : Handler.RResponse) (dom : List Handler.DomMsg)
    (hnull : response ≠ Handler.RResponse.nullResp)
    (hact : Handler.actionsOf response = [])
    (hconf : Handler.isDateConfirmation dom = false) :
    0 < Handler.renderedCount (Handler.handleRasaResponse response dom) ∧
    ((Handler.handleRasaResponse response dom).texts = [] →
      (Handler.handleRasaResponse response dom).widgets = [] →
      ((Handler.isGreetingUser dom = true →
          (Handler.handleRasaResponse response dom).synthesized = some Handler.helloReply) ∧
        (Handler.isGreetingUser dom = false →
          (Handler.handleRasaResponse response dom).synthesized = some Handler.processingReply))) := by
  unfold Handler.handleRasaResponse
  rw [if_neg hnull]
  by_cases hw : Handler.widgetTextAdded (Handler.msgsOf response) = true
  · rw [if_pos (by simp [hw])]
    have hwne := collectWidgets_ne_nil (Handler.msgsOf response) hw
    constructor
    · have hpos := List.length_pos.mpr hwne
      unfold Handler.renderedCount
      simp only []
      omega
    · intro _ hwidg
      exact absurd hwidg hwne
  · have hw2 : Handler.widgetTextAdded (Handler.msgsOf response) = false := by simpa using hw
    by_cases ht : (Handler.filteredBatch response dom).isEmpty = true
    · rw [if_neg (by simp [hw2, ht])]
      rw [if_neg (by simp [hact])]
      rw [if_neg (by simp [hconf])]
      by_cases hg : Handler.isGreetingUser dom = true
      · rw [if_pos hg]
        refine ⟨by simp [Handler.renderedCount], ?_⟩
        intro _ _
        exact ⟨fun _ => rfl, fun hgf => absurd hg (by simp [hgf])⟩
      · rw [if_neg hg]
        refine ⟨by simp [Handler.renderedCount], ?_⟩
        intro _ _
        exact ⟨fun hgt => absurd hgt hg, fun _ => rfl⟩
    · rw [if_pos (by simp [ht])]
      have htne : Handler.filteredBatch response dom ≠ [] := by
        simpa [List.isEmpty_iff] using ht
      constructor
      · have hpos := List.length_pos.mpr htne
        unfold Handler.renderedCount
        simp only []
        omega
      · intro htx _
        exact absurd htx htne

/-- C2 (witness): an empty, action-free response after the user greeted:
the handler synthesizes the friendly greeting, rendering one entry. -/
theorem claim2_witness :
    Examples.emptyResponse ≠ Handler.RResponse.nullResp ∧
    Handler.actionsOf Examples.emptyResponse = [] ∧
    Handler.isDateConfirmation Examples.greetingDom = false ∧
    0 < Handler.renderedCount
      (Handler.handleRasaResponse Examples.emptyResponse Examples.greetingDom) :=
  ⟨by decide, by decide, by decide,
    (claim2_renders_or_synthesizes Examples.emptyResponse Examples.greetingDom
      (by decide) (by decide) (by decide)).1⟩

/-- C5 (counterexample): the batch `["Shall we continue with your booking?",
fallback]` contains a recognized info-question prompt, yet the rendered
output contains the fallback utterance: the prompt itself is removed by the
earlier transitional-phrase filter (it contains `continue` and `booking`),
so the in-batch prompt detection — which runs after that filter — misses it. -/
theorem claim5_counterexample :
    Handler.specBatchContainsInfoPrompt Examples.promptThenFallback = true ∧
    ((Handler.handleRasaResponse Examples.promptThenFallback Examples.emptyDom).texts.any
      fun m => Handler.isFallbackLower (jsToLower m)) = true := by
  decide

/-- C5 (amended): whenever the combined info-question flag is set — the
rendered feed's five-entry tail contains a recognized prompt, or the batch
still contains one after the transitional-phrase filter — no fallback-style
utterance of the batch appears in the rendered output.  (A prompt that the
transitional-phrase filter itself removes, such as "Shall we continue with
your booking?" alone in the batch, does not trigger the suppression.) -/
theorem claim5_no_fallback_after_info (response : Handler.RResponse) (dom : List Handler.DomMsg)
    (h : Handler.hasInfoQuestion response dom = true) :
    ((Handler.handleRasaResponse response dom).texts.all
      fun m => !(Handler.isFallbackLower (jsToLower m))) = true := by
  rw [List.all_eq_true]
  intro m hm
  rw [handle_texts_eq] at hm
  by_cases hn : response = Handler.RResponse.nullResp
  · rw [if_pos hn] at hm
    simp at hm
  · rw [if_neg hn] at hm
    have hm2 : m ∈ Handler.afterFallbackFilter response dom :=
      (filteredBatch_sublist_fallback response dom).mem hm
    have hk : Handler.fallbackKeep (Handler.hasInfoQuestion response dom)
        (Handler.afterContinueFilter response) m = true :=
      (List.mem_filter.mp hm2).2
    rw [h] at hk
    have hfb := fallbackKeep_not_fallback _ _ hk
    simp [hfb]

/-- C5 (witness): the feed tail asks "Is there anything else you'd like to
know?", the batch holds one fallback utterance: nothing fallback-styled is
rendered. -/
theorem claim5_witness :
    Handler.hasInfoQuestion Examples.fallbackOnly Examples.infoDom = true ∧
    ((Handler.handleRasaResponse Examples.fallbackOnly Examples.infoDom).texts.all
      fun m => !(Handler.isFallbackLower (jsToLower m))) = true :=
  ⟨by decide, claim5_no_fallback_after_info Examples.fallbackOnly Examples.infoDom (by decide)⟩

/-- C6 (counterexample): in the batch `[greeting, "For how many guests?",
"For how many guests?"]` the guests question survives the content filters
twice (count 2 entering the duplicate filter), yet the rendered output
contains it zero times, not exactly once: after the duplicate collapse keeps
the first occurrence, the greeting collapse — which runs later — drops
everything after the leading greeting. -/
theorem claim6_counterexample :
    Handler.countKey (Handler.afterSummaryFilter Examples.greetThenDuplicates Examples.emptyDom)
      (Handler.normKey Examples.guestsQuestion) = 2 ∧
    Handler.countKey
      (Handler.handleRasaResponse Examples.greetThenDuplicates Examples.emptyDom).texts
      (Handler.normKey Examples.guestsQuestion) = 0 := by
  decide

/-- C6 (amended): the rendered output never contains two turns with the same
normalized (lowercased, trimmed) text — at most one, not exactly one, since
the collapse rules running after the duplicate filter may drop the kept
occurrence — and every rendered turn is the first occurrence of its
normalized text among the messages entering the duplicate filter. -/
theorem claim6_at_most_one_duplicate (response : Handler.RResponse) (dom : List Handler.DomMsg)
    (key : String) :
    Handler.countKey (Handler.handleRasaResponse response dom).texts key ≤ 1 ∧
    ((Handler.handleRasaResponse response dom).texts.all fun m =>
      decide ((Handler.afterSummaryFilter response dom).find?
        (fun x => decide (Handler.normKey x = Handler.normKey m)) = some m)) = true := by
  rw [handle_texts_eq]
  by_cases hn : response = Handler.RResponse.nullResp
  · rw [if_pos hn]
    exact ⟨by simp [Handler.countKey], by simp⟩
  · rw [if_neg hn]
    constructor
    · exact (countKey_le_of_sublist _ _ key (filteredBatch_sublist_dedup response dom)).trans
        (dedupAux_countKey_le _ [] key)
    · rw [List.all_eq_true]
      intro m hm
      have hm2 : m ∈ Handler.afterDedup response dom :=
        (filteredBatch_sublist_dedup response dom).mem hm
      have hfind := dedupAux_find (Handler.afterSummaryFilter response dom) [] m hm2
      simp [hfind]

/-! ### Substring facts for the picker's combined message -/

/-- `(s ++ t).data` unfolds to the concatenated character lists. -/
theorem strData_append (s t : String) : (s ++ t).data = s.data ++ t.data := rfl

/-- A list is a prefix of itself followed by anything. -/
theorem isPrefixChars_append_self (l r : List Char) : isPrefixChars l (l ++ r) = true := by
  induction l with
  | nil => rfl
  | cons c cs ih => simp [isPrefixChars, ih]

/-- A prefix is a substring. -/
theorem hasSubstrChars_of_prefix (l pat : List Char) (h : isPrefixChars pat l = true) :
    hasSubstrChars l pat = true := by
  cases pat with
  | nil => cases l <;> rfl
  | cons p ps =>
    cases l with
    | nil => exact absurd h (by simp [isPrefixChars])
    | cons c cs =>
      unfold hasSubstrChars
      rw [h]
      rfl

/-- A pattern embedded between two contexts is a substring. -/
theorem hasSubstrChars_append_self (pre pat rest : List Char) :
    hasSubstrChars (pre ++ (pat ++ rest)) pat = true := by
  induction pre with
  | nil => exact hasSubstrChars_of_prefix _ _ (isPrefixChars_append_self pat rest)
  | cons c cs ih =>
    cases pat with
    | nil => rfl
    | cons p ps =>
      show (isPrefixChars (p :: ps) (c :: (cs ++ (p :: ps ++ rest))) ||
        hasSubstrChars (cs ++ (p :: ps ++ rest)) (p :: ps)) = true
      rw [ih]
      simp

/-- `jsIncludes` holds whenever the pattern's characters occur contiguously. -/
theorem jsIncludes_parts (s pat : String) (pre post : List Char)
    (h : s.data = pre ++ (pat.data ++ post)) : jsIncludes s pat = true := by
  unfold jsIncludes
  rw [h]
  exact hasSubstrChars_append_self pre pat.data post

/-- The combined slot message contains both formatted dates. -/
theorem combinedMessage_includes (arrival departure : Calendar.HDate) :
    jsIncludes (Calendar.combinedMessage arrival departure) (Calendar.formatGB arrival) = true ∧
    jsIncludes (Calendar.combinedMessage arrival departure) (Calendar.formatGB departure) = true := by
  constructor
  · apply jsIncludes_parts _ _ ("arrival date: ".data)
      ((", departure date: " ++ Calendar.formatGB departure).data)
    show ("arrival date: " ++ Calendar.formatGB arrival ++ ", departure date: " ++
      Calendar.formatGB departure).data = _
    simp [strData_append, List.append_assoc]
  · apply jsIncludes_parts _ _
      (("arrival date: " ++ Calendar.formatGB arrival ++ ", departure date: ").data) []
    show ("arrival date: " ++ Calendar.formatGB arrival ++ ", departure date: " ++
      Calendar.formatGB departure).data = _
    simp [strData_append, List.append_assoc]

/-- C4: from the `ArrivalPicked` configuration (arrival set, departure not
yet), a click on a strictly later date sets the departure and shows the
confirm button, and confirming then emits exactly one combined slot message —
the template `"arrival date: <a>, departure date: <d>"`, containing both
formatted dates — and hides the button; a click on a date not strictly after
the arrival surfaces the alert and leaves the selection, the confirm
visibility and the outbound messages unchanged. -/
theorem claim4_picker_range (st : Calendar.PickerState) (arrival cellDate : Calendar.HDate)
    (ha : st.selectedArrivalDate = some arrival)
    (hd : st.selectedDepartureDate = none) :
    (Calendar.serial arrival < Calendar.serial cellDate →
      Calendar.clickDateBooking cellDate st =
        { st with selectedDepartureDate := some cellDate, confirmVisible := true } ∧
      Calendar.confirmClick (Calendar.clickDateBooking cellDate st) =
        { st with
          selectedDepartureDate := some cellDate
          confirmVisible := false
          sent := st.sent ++ [Calendar.combinedMessage arrival cellDate] } ∧
      jsIncludes (Calendar.combinedMessage arrival cellDate) (Calendar.formatGB arrival) = true ∧
      jsIncludes (Calendar.combinedMessage arrival cellDate) (Calendar.formatGB cellDate) = true) ∧
    (¬ Calendar.serial arrival < Calendar.serial cellDate →
      Calendar.clickDateBooking cellDate st =
        { st with alerts := st.alerts ++ [Calendar.invalidAlert] }) := by
  constructor
  · intro hlt
    have hclick : Calendar.clickDateBooking cellDate st =
        { st with selectedDepartureDate := some cellDate, confirmVisible := true } := by
      unfold Calendar.clickDateBooking
      simp only [ha, hd]
      rw [if_pos hlt]
    have hconfirm : Calendar.confirmClick
        { st with selectedDepartureDate := some cellDate, confirmVisible := true } =
        { st with
          selectedDepartureDate := some cellDate
          confirmVisible := false
          sent := st.sent ++ [Calendar.combinedMessage arrival cellDate] } := by
      unfold Calendar.confirmClick
      simp only [ha]
    refine ⟨hclick, ?_, (combinedMessage_includes arrival cellDate).1,
      (combinedMessage_includes arrival cellDate).2⟩
    rw [hclick]
    exact hconfirm
  · intro hge
    unfold Calendar.clickDateBooking
    simp only [ha, hd]
    rw [if_neg hge]

/-- C4 (witness): arrival 10 October 2025; clicking 15 October sets the
departure and confirming emits the combined message; clicking 8 October is
rejected with the alert and no message. -/
theorem claim4_witness :
    Calendar.clickDateBooking Examples.octFifteenth Examples.arrivalPicked =
      { Examples.arrivalPicked with
        selectedDepartureDate := some Examples.octFifteenth
        confirmVisible := true } ∧
    Calendar.confirmClick (Calendar.clickDateBooking Examples.octFifteenth
        Examples.arrivalPicked) =
      { Examples.arrivalPicked with
        selectedDepartureDate := some Examples.octFifteenth
        confirmVisible := false
        sent := Examples.arrivalPicked.sent ++
          [Calendar.combinedMessage Examples.octTenth Examples.octFifteenth] } ∧
    Calendar.clickDateBooking Examples.octEighth Examples.arrivalPicked =
      { Examples.arrivalPicked with
        alerts := Examples.arrivalPicked.alerts ++ [Calendar.invalidAlert] } :=
  ⟨((claim4_picker_range Examples.arrivalPicked Examples.octTenth Examples.octFifteenth
      rfl rfl).1 (by decide)).1,
    ((claim4_picker_range Examples.arrivalPicked Examples.octTenth Examples.octFifteenth
      rfl rfl).1 (by decide)).2.1,
    (claim4_picker_range Examples.arrivalPicked Examples.octTenth Examples.octEighth
      rfl rfl).2 (by decide)⟩

/-! ### Booking-slot reset -/

/-- Reading back the key just assigned. -/
theorem getSlot_setSlot_same (m : ChatPage.SlotMap) (key : String) (v : Option String) :
    ChatPage.getSlot (ChatPage.setSlot m key v) key = some v := by
  induction m with
  | nil => simp [ChatPage.setSlot, ChatPage.getSlot]
  | cons kv rest ih =>
    obtain ⟨k, w⟩ := kv
    by_cases hk : (k == key) = true
    · simp [ChatPage.setSlot, ChatPage.getSlot, hk]
    · have hk2 : (k == key) = false := by simpa using hk
      simp [ChatPage.setSlot, ChatPage.getSlot, hk2, ih]

/-- Assigning one key leaves the others unchanged. -/
theorem getSlot_setSlot_ne (m : ChatPage.SlotMap) (key other : String) (v : Option String)
    (h : other ≠ key) :
    ChatPage.getSlot (ChatPage.setSlot m other v) key = ChatPage.getSlot m key := by
  induction m with
  | nil => simp [ChatPage.setSlot, ChatPage.getSlot, h]
  | cons kv rest ih =>
    obtain ⟨k, w⟩ := kv
    by_cases hk : (k == other) = true
    · have hke : k = other := by simpa using hk
      subst hke
      simp [ChatPage.setSlot, ChatPage.getSlot, h]
    · have hk2 : (k == other) = false := by simpa using hk
      by_cases hkey : (k == key) = true
      · simp [ChatPage.setSlot, ChatPage.getSlot, hk2, hkey]
      · have hkey2 : (k == key) = false := by simpa using hkey
        simp [ChatPage.setSlot, ChatPage.getSlot, hk2, hkey2, ih]

/-- After the reset block, each of the seven booking slot keys is present
and null. -/
theorem resetBookingSlots_unsets (m : ChatPage.SlotMap) :
    ∀ key ∈ ChatPage.bookingSlotKeys,
      ChatPage.getSlot (ChatPage.resetBookingSlots m) key = some none := by
  intro key hk
  unfold ChatPage.resetBookingSlots
  fin_cases hk <;>
    · repeat rw [getSlot_setSlot_ne _ _ _ _ (by decide)]
      rw [getSlot_setSlot_same]

/-- C7: when the lowercased, trimmed user message contains a booking-start
phrase, the context serialized into the request has a `slots` object in
which all seven booking slot keys — guests, room_type, arrival_date,
departure_date, nights, rooms, payment_option — are set to null before the
request is issued. -/
theorem claim7_booking_reset (message : String) (ctx : ChatPage.ConversationContext)
    (h : ChatPage.detectsBookingStart message = true) :
    (ChatPage.contextForRequest message ctx).slots =
      some (ChatPage.resetBookingSlots (ctx.slots.getD [])) ∧
    ∀ key ∈ ChatPage.bookingSlotKeys,
      ChatPage.getSlot (ChatPage.resetBookingSlots (ctx.slots.getD [])) key = some none := by
  constructor
  · unfold ChatPage.contextForRequest
    rw [if_pos h]
  · exact resetBookingSlots_unsets _

/-- C7 (witness): `"I want to book a room"` over a context holding stale
guests and room_type values: the request context's slots are reset, and the
stale `guests` value reads back as null. -/
theorem claim7_witness :
    ChatPage.detectsBookingStart "I want to book a room" = true ∧
    (ChatPage.contextForRequest "I want to book a room" Examples.staleContext).slots =
      some (ChatPage.resetBookingSlots (Examples.staleContext.slots.getD [])) ∧
    ChatPage.getSlot (ChatPage.resetBookingSlots (Examples.staleContext.slots.getD []))
      "guests" = some none :=
  ⟨by decide,
    (claim7_booking_reset "I want to book a room" Examples.staleContext (by decide)).1,
    (claim7_booking_reset "I want to book a room" Examples.staleContext (by decide)).2
      "guests" (by decide)⟩

end StayAssist
